import Mathlib

/-!
Shallow embedding of the aqi-notify worker (src/index.ts): AQI severity
classification, provider-response validation, message formatting, Telegram
delivery, and the HTTP / scheduled dispatchers.  Numbers handled by the
worker are modelled as integers; the two outbound HTTP calls are modelled
by explicit outcome oracles passed to the embedded functions.
-/

namespace AqiNotify

/-- Upper bound of an AQI level: a finite number or `Infinity` (last tier). -/
inductive AQIMax where
  | fin (n : Int)
  | inf
  deriving DecidableEq

/-- JS comparison `aqi <= level.max` restricted to non-`NaN` numbers
(every such number is `<= Infinity`); `jsLe` below extends it to the full
JS-number domain where comparisons with `NaN` are false. -/
def aqiLe (v : Int) : AQIMax → Bool
  | .fin n => v ≤ n
  | .inf => true

structure AQILevelRec where
  max : AQIMax
  level : String
  emoji : String
  advisory : String
  deriving DecidableEq

/-- The fixed `AQI_LEVELS` table of src/index.ts, in source order. -/
def AQI_LEVELS : List AQILevelRec :=
  [ { max := .fin 50, level := "Good", emoji := "🟢",
      advisory := "Air quality is satisfactory with little or no risk." },
    { max := .fin 100, level := "Moderate", emoji := "🟡",
      advisory := "Air quality is acceptable. However, there may be moderate health concern for very sensitive people." },
    { max := .fin 150, level := "Unhealthy for Sensitive Groups", emoji := "🟠",
      advisory := "Members of sensitive groups may experience health effects. General public is less likely to be affected." },
    { max := .fin 200, level := "Unhealthy", emoji := "🔴",
      advisory := "Everyone may begin to experience health effects. Sensitive groups may experience more serious effects. Consider wearing a mask outdoors." },
    { max := .fin 300, level := "Very Unhealthy", emoji := "🟣",
      advisory := "Health alert: everyone may experience more serious health effects. Avoid outdoor activities." },
    { max := .inf, level := "Hazardous", emoji := "🟤",
      advisory := "Health warning of emergency conditions. Everyone is more likely to be affected. Stay indoors." } ]

/-- `getAQILevel`: first level with `aqi <= max`, else the last table entry
(`AQI_LEVELS[AQI_LEVELS.length - 1]`). -/
def getAQILevel (aqi : Int) : AQILevelRec :=
  (AQI_LEVELS.find? (fun l => aqiLe aqi l.max)).getD
    (AQI_LEVELS.getLast (by decide))

/-- `CONFIG.ALERT_THRESHOLD` -/
def ALERT_THRESHOLD : Int := 100

/-- `CONFIG.CRON.HOURLY` -/
def CRON_HOURLY : String := "0 * * * *"

/-- `CONFIG.CRON.DAILY_SUMMARY` -/
def CRON_DAILY_SUMMARY : String := "0 1 * * *"

/-- `POLLUTANT_LABELS` as an association list in source order. -/
def POLLUTANT_LABELS : List (String × String) :=
  [("pm25", "PM2.5"), ("pm10", "PM10"), ("o3", "O₃"),
   ("no2", "NO₂"), ("so2", "SO₂"), ("co", "CO")]

/-- `POLLUTANT_LABELS[key] || key` (an empty-string label would be falsy
and also fall back to the key, mirroring JS `||`). -/
def labelFor (key : String) : String :=
  match POLLUTANT_LABELS.lookup key with
  | some l => if l = "" then key else l
  | none => key

/-- The six optional pollutant concentrations carried by `AQIData`. -/
structure Pollutants where
  pm25 : Option Int
  pm10 : Option Int
  o3 : Option Int
  no2 : Option Int
  so2 : Option Int
  co : Option Int
  deriving DecidableEq

/-- The three optional weather fields carried by `AQIData`. -/
structure Weather where
  temperature : Option Int
  humidity : Option Int
  wind : Option Int
  deriving DecidableEq

/-- The normalized `AQIData` record produced by `fetchAQI`. -/
structure AQIData where
  aqi : Int
  city : String
  dominantPollutant : String
  pollutants : Pollutants
  weather : Weather
  time : String
  deriving DecidableEq

/-- `Object.entries(pollutants)`: the six keys in object-literal order,
paired with their (possibly undefined) values. -/
def pollutantEntries (p : Pollutants) : List (String × Option Int) :=
  [("pm25", p.pm25), ("pm10", p.pm10), ("o3", p.o3),
   ("no2", p.no2), ("so2", p.so2), ("co", p.co)]

/-- `Array.prototype.join(sep)` on a list of strings. -/
def sepJoin (sep : String) : List String → String
  | [] => ""
  | [a] => a
  | a :: rest => a ++ sep ++ sepJoin sep rest

/-- The bullet lines of `formatPollutants`: keep defined entries, render
each as `• {label}: {value}`. -/
def pollutantLines (entries : List (String × Option Int)) : List String :=
  entries.filterMap
    (fun e => e.2.map (fun v => "• " ++ labelFor e.1 ++ ": " ++ toString v))

/-- `formatPollutants` on the entry list of a pollutants object. -/
def formatPollutants (entries : List (String × Option Int)) : String :=
  let lines := pollutantLines entries
  if lines.length > 0 then sepJoin "\n" lines else "No pollutant data available"

/-- The `parts` array built by `formatWeather` (pushes in source order). -/
def weatherParts (w : Weather) : List String :=
  (match w.temperature with | some t => [toString t ++ "°C"] | none => [])
    ++ (match w.humidity with | some h => [toString h ++ "% humidity"] | none => [])
    ++ (match w.wind with | some s => ["Wind: " ++ toString s ++ " m/s"] | none => [])

/-- `formatWeather`: joins the present fields with a separator, or returns
the empty string when none is present. -/
def formatWeather (w : Weather) : String :=
  let parts := weatherParts w
  if parts.length > 0 then sepJoin " | " parts else ""

structure MessageOptions where
  title : String
  titleEmoji : String
  aqiLabel : String
  footer : Option String
  deriving DecidableEq

/-- The `parts` array of `formatMessage`, after all conditional pushes.
JS truthiness: an empty `weatherInfo` or empty `footer` string is falsy
and pushes nothing. -/
def formatMessageParts (data : AQIData) (options : MessageOptions) : List String :=
  let level := getAQILevel data.aqi
  let weatherInfo := formatWeather data.weather
  [options.titleEmoji ++ " <b>" ++ options.title ++ "</b>",
   "",
   "<b>" ++ options.aqiLabel ++ ": " ++ toString data.aqi ++ "</b> - "
     ++ level.level ++ " " ++ level.emoji,
   "",
   "📊 <b>Pollutants:</b>",
   formatPollutants (pollutantEntries data.pollutants),
   "",
   "🏥 <b>Health Advisory:</b>",
   level.advisory]
  ++ (if weatherInfo = "" then [] else ["", "🌡️ " ++ weatherInfo])
  ++ (match options.footer with
      | none => []
      | some f => if f = "" then [] else ["", f])
  ++ ["", "⏰ " ++ data.time]

/-- `parts.join('\n')`. -/
def joinLines : List String → String
  | [] => ""
  | [a] => a
  | a :: rest => a ++ "\n" ++ joinLines rest

/-- `formatMessage` -/
def formatMessage (data : AQIData) (options : MessageOptions) : String :=
  joinLines (formatMessageParts data options)

/-- `formatAlertMessage` -/
def formatAlertMessage (data : AQIData) : String :=
  formatMessage data
    { title := "Bangkok Air Quality Alert", titleEmoji := "⚠️",
      aqiLabel := "AQI", footer := none }

/-- `formatDailySummary` -/
def formatDailySummary (data : AQIData) : String :=
  formatMessage data
    { title := "Bangkok Daily Air Quality Summary", titleEmoji := "📋",
      aqiLabel := "Current AQI", footer := some "Have a good day! 🌅" }

/-- The distinct `throw new Error(...)` sites of the worker, one
constructor per site, carrying what the message template interpolates. -/
inductive WErr where
  | fetchError (status : Nat) (statusText : String)
  | apiStatusError (status : String)
  | schemaError
  | invalidIndexError (aqiShown : String)
  | emptyMessageError
  | deliveryError (status : Nat) (body : String)
  deriving DecidableEq

/-- `getErrorMessage` composed with each throw site's message template. -/
def getErrorMessage : WErr → String
  | .fetchError status statusText =>
      "AQICN API error: " ++ toString status ++ " " ++ statusText
  | .apiStatusError status =>
      "AQICN API returned error status: " ++ status
  | .schemaError => "Incomplete data structure in API response"
  | .invalidIndexError aqiShown => "Invalid AQI value received: " ++ aqiShown
  | .emptyMessageError => "Cannot send empty message to Telegram"
  | .deliveryError status body =>
      "Telegram API error: " ++ toString status ++ " - " ++ body

/-- The value found at `data.aqi` in the provider JSON: a number, or a
non-number (carrying how JS would stringify it, e.g. `undefined`). -/
inductive JsonNum where
  | num (v : Int)
  | nonNum (shown : String)
  deriving DecidableEq

structure JCity where
  name : Option String
  deriving DecidableEq

/-- The `iaqi` sub-object: each recognized sensor's optional `{v}`. -/
structure JIaqi where
  pm25 : Option Int
  pm10 : Option Int
  o3 : Option Int
  no2 : Option Int
  so2 : Option Int
  co : Option Int
  t : Option Int
  h : Option Int
  w : Option Int
  deriving DecidableEq

structure JTime where
  s : String
  deriving DecidableEq

structure JData where
  aqi : JsonNum
  city : Option JCity
  dominentpol : String
  iaqi : JIaqi
  time : JTime
  deriving DecidableEq

/-- The parsed provider response body. -/
structure AQICNResponse where
  status : String
  data : Option JData
  deriving DecidableEq

/-- The transport-level outcome of the provider GET. -/
structure HttpResp where
  ok : Bool
  status : Nat
  statusText : String
  deriving DecidableEq

/-- JS truthiness of `data.city?.name` as tested by
`!data.city || !data.city.name` (missing object, missing name, or the
falsy empty string all fail). -/
def cityNameTruthy : Option JCity → Bool
  | none => false
  | some c => match c.name with
    | none => false
    | some n => n ≠ ""

/-- `fetchAQI` after the GET: HTTP check, status-field check, structure
check, AQI validity check, then projection into `AQIData`. -/
def fetchAQI (resp : HttpResp) (json : AQICNResponse) : Except WErr AQIData :=
  if !resp.ok then
    .error (.fetchError resp.status resp.statusText)
  else if json.status ≠ "ok" then
    .error (.apiStatusError json.status)
  else
    match json.data with
    | none => .error .schemaError
    | some data =>
      if !cityNameTruthy data.city then
        .error .schemaError
      else
        match data.aqi with
        | .nonNum shown => .error (.invalidIndexError shown)
        | .num v =>
          if v < 0 then .error (.invalidIndexError (toString v))
          else
            .ok { aqi := v,
                  city := (data.city.map (fun c => c.name.getD "")).getD "",
                  dominantPollutant := data.dominentpol,
                  pollutants :=
                    { pm25 := data.iaqi.pm25, pm10 := data.iaqi.pm10,
                      o3 := data.iaqi.o3, no2 := data.iaqi.no2,
                      so2 := data.iaqi.so2, co := data.iaqi.co },
                  weather :=
                    { temperature := data.iaqi.t, humidity := data.iaqi.h,
                      wind := data.iaqi.w },
                  time := data.time.s }

/-- Outcome oracle for the Telegram POST: `none` = HTTP ok, `some (c, b)` =
non-ok status `c` with response body `b`. -/
def TgOutcome := String → Option (Nat × String)

/-- Whitespace test used to model JS `String.prototype.trim`. -/
def isJsWS (c : Char) : Bool := c.isWhitespace

/-- JS `message.trim()`: strip whitespace from both ends. -/
def jsTrim (s : String) : String :=
  ⟨((s.data.dropWhile isJsWS).reverse.dropWhile isJsWS).reverse⟩

/-- `sendTelegram`: empty-message guard, then the POST.  Returns the list
of messages POSTed to the provider and the error thrown, if any. -/
def sendTelegram (msg : String) (send : TgOutcome) :
    List String × Option WErr :=
  if jsTrim msg = "" then ([], some .emptyMessageError)
  else
    match send msg with
    | none => ([msg], none)
    | some (c, b) => ([msg], some (.deliveryError c b))

/-- The body of the `scheduled` handler (inside `try`): messages POSTed and
the error thrown, if any. -/
def scheduledBody (cron : String) (fetched : Except WErr AQIData)
    (send : TgOutcome) : List String × Option WErr :=
  match fetched with
  | .error e => ([], some e)
  | .ok data =>
    if cron = CRON_DAILY_SUMMARY then
      sendTelegram (formatDailySummary data) send
    else if data.aqi > ALERT_THRESHOLD then
      sendTelegram (formatAlertMessage data) send
    else ([], none)

/-- The `scheduled` handler: the `catch` turns any thrown error into a
logged one; nothing propagates.  Returns the POSTed messages and the
logged error, if any. -/
def scheduled (cron : String) (fetched : Except WErr AQIData)
    (send : TgOutcome) : List String × Option WErr :=
  scheduledBody cron fetched send

/-- A worker `Response` body: plain text or `Response.json(data)`. -/
inductive RespBody where
  | text (s : String)
  | jsonData (d : AQIData)
  deriving DecidableEq

structure WResponse where
  body : RespBody
  status : Nat
  deriving DecidableEq

/-- `handleWithError` with the default `errorStatus = 500`. -/
def handleWithError (op : Except WErr WResponse) : WResponse :=
  match op with
  | .ok r => r
  | .error e => { body := .text ("Error: " ++ getErrorMessage e), status := 500 }

/-- `sendTelegram` as the `Except` the awaiting caller observes. -/
def sendTelegramExc (msg : String) (send : TgOutcome) : Except WErr Unit :=
  match (sendTelegram msg send).2 with
  | some e => .error e
  | none => .ok ()

/-- The usage text returned for unrecognized paths. -/
def usageText : String :=
  "AQI Notify - Bangkok Air Quality Monitor\n\nEndpoints:\n- /check - Get current AQI data (JSON)\n- /test-alert - Send a test alert notification\n- /test-summary - Send a test daily summary\n\nScheduled tasks:\n- Hourly check: Sends alert if AQI > " ++ toString ALERT_THRESHOLD ++ "\n- Daily summary: Sent at 8:00 AM Bangkok time\n"

/-- The `fetch` handler: route on the path, wrap core paths in
`handleWithError`. -/
def workerFetch (path : String) (fetched : Except WErr AQIData)
    (send : TgOutcome) : WResponse :=
  if path = "/test-alert" then
    handleWithError (match fetched with
      | .error e => .error e
      | .ok data =>
        match sendTelegramExc (formatAlertMessage data) send with
        | .error e => .error e
        | .ok _ =>
          .ok { body := .text ("Alert sent! AQI: " ++ toString data.aqi),
                status := 200 })
  else if path = "/test-summary" then
    handleWithError (match fetched with
      | .error e => .error e
      | .ok data =>
        match sendTelegramExc (formatDailySummary data) send with
        | .error e => .error e
        | .ok _ =>
          .ok { body := .text ("Summary sent! AQI: " ++ toString data.aqi),
                status := 200 })
  else if path = "/check" then
    handleWithError (match fetched with
      | .error e => .error e
      | .ok data => .ok { body := .jsonData data, status := 200 })
  else
    { body := .text usageText, status := 200 }

/-! ### Classifier lemmas -/

/-- The first-match scan of `getAQILevel` always succeeds: the last tier's
bound is `Infinity`, so the `|| AQI_LEVELS[...]` fallback is dead. -/
lemma find?_levels (v : Int) :
    AQI_LEVELS.find? (fun l => aqiLe v l.max) = some (getAQILevel v) := by
  unfold getAQILevel AQI_LEVELS
  by_cases h1 : v ≤ 50 <;> by_cases h2 : v ≤ 100 <;> by_cases h3 : v ≤ 150 <;>
    by_cases h4 : v ≤ 200 <;> by_cases h5 : v ≤ 300 <;>
    simp [List.find?, aqiLe, h1, h2, h3, h4, h5]

/-- Branch characterization of `getAQILevel` by the table's cut points. -/
lemma getAQILevel_eq_get (v : Int) :
    (v ≤ 50 → getAQILevel v = AQI_LEVELS.get ⟨0, by decide⟩) ∧
    (¬v ≤ 50 → v ≤ 100 → getAQILevel v = AQI_LEVELS.get ⟨1, by decide⟩) ∧
    (¬v ≤ 100 → v ≤ 150 → getAQILevel v = AQI_LEVELS.get ⟨2, by decide⟩) ∧
    (¬v ≤ 150 → v ≤ 200 → getAQILevel v = AQI_LEVELS.get ⟨3, by decide⟩) ∧
    (¬v ≤ 200 → v ≤ 300 → getAQILevel v = AQI_LEVELS.get ⟨4, by decide⟩) ∧
    (¬v ≤ 300 → getAQILevel v = AQI_LEVELS.get ⟨5, by decide⟩) := by
  unfold getAQILevel AQI_LEVELS
  refine ⟨fun h1 => ?_, fun h1 h2 => ?_, fun h2 h3 => ?_,
    fun h3 h4 => ?_, fun h4 h5 => ?_, fun h5 => ?_⟩ <;>
    simp only [List.find?, aqiLe]
  · rw [decide_eq_true h1]
    rfl
  · rw [decide_eq_false h1, decide_eq_true h2]
    rfl
  · have h1 : ¬v ≤ 50 := by omega
    rw [decide_eq_false h1, decide_eq_false h2, decide_eq_true h3]
    rfl
  · have h1 : ¬v ≤ 50 := by omega
    have h2 : ¬v ≤ 100 := by omega
    rw [decide_eq_false h1, decide_eq_false h2, decide_eq_false h3,
      decide_eq_true h4]
    rfl
  · have h1 : ¬v ≤ 50 := by omega
    have h2 : ¬v ≤ 100 := by omega
    have h3 : ¬v ≤ 150 := by omega
    rw [decide_eq_false h1, decide_eq_false h2, decide_eq_false h3,
      decide_eq_false h4, decide_eq_true h5]
    rfl
  · have h1 : ¬v ≤ 50 := by omega
    have h2 : ¬v ≤ 100 := by omega
    have h3 : ¬v ≤ 150 := by omega
    have h4 : ¬v ≤ 200 := by omega
    rw [decide_eq_false h1, decide_eq_false h2, decide_eq_false h3,
      decide_eq_false h4, decide_eq_false h5]
    rfl

/-- C1: the classifier is a first-match lookup over the fixed ascending
six-tier table: for `v ≥ 0` the returned tier's bound is `≥ v` and every
earlier tier's bound is `< v`; the twelve sample indices classify to the
expected labels. -/
theorem claim1_classifier_first_match (v : Int) (hv : 0 ≤ v) :
    (aqiLe v (getAQILevel v).max = true ∧
      ∃ pre post, AQI_LEVELS = pre ++ getAQILevel v :: post ∧
        ∀ l ∈ pre, aqiLe v l.max = false) ∧
    ((getAQILevel 0).level = "Good" ∧ (getAQILevel 50).level = "Good" ∧
     (getAQILevel 51).level = "Moderate" ∧
     (getAQILevel 100).level = "Moderate" ∧
     (getAQILevel 101).level = "Unhealthy for Sensitive Groups" ∧
     (getAQILevel 150).level = "Unhealthy for Sensitive Groups" ∧
     (getAQILevel 151).level = "Unhealthy" ∧
     (getAQILevel 200).level = "Unhealthy" ∧
     (getAQILevel 201).level = "Very Unhealthy" ∧
     (getAQILevel 300).level = "Very Unhealthy" ∧
     (getAQILevel 301).level = "Hazardous" ∧
     (getAQILevel 100000).level = "Hazardous") := by
  refine ⟨?_, by decide⟩
  obtain ⟨c0, c1, c2, c3, c4, c5⟩ := getAQILevel_eq_get v
  by_cases h1 : v ≤ 50
  · rw [c0 h1]
    refine ⟨?_, AQI_LEVELS.take 0, AQI_LEVELS.drop 1, by decide, ?_⟩
    · show aqiLe v (AQIMax.fin 50) = true
      simpa [aqiLe] using h1
    · simp [AQI_LEVELS]
  · by_cases h2 : v ≤ 100
    · rw [c1 h1 h2]
      refine ⟨?_, AQI_LEVELS.take 1, AQI_LEVELS.drop 2, by decide, ?_⟩
      · show aqiLe v (AQIMax.fin 100) = true
        simpa [aqiLe] using h2
      · simp [AQI_LEVELS, aqiLe]
        omega
    · by_cases h3 : v ≤ 150
      · rw [c2 h2 h3]
        refine ⟨?_, AQI_LEVELS.take 2, AQI_LEVELS.drop 3, by decide, ?_⟩
        · show aqiLe v (AQIMax.fin 150) = true
          simpa [aqiLe] using h3
        · simp [AQI_LEVELS, aqiLe]
          omega
      · by_cases h4 : v ≤ 200
        · rw [c3 h3 h4]
          refine ⟨?_, AQI_LEVELS.take 3, AQI_LEVELS.drop 4, by decide, ?_⟩
          · show aqiLe v (AQIMax.fin 200) = true
            simpa [aqiLe] using h4
          · simp [AQI_LEVELS, aqiLe]
            omega
        · by_cases h5 : v ≤ 300
          · rw [c4 h4 h5]
            refine ⟨?_, AQI_LEVELS.take 4, AQI_LEVELS.drop 5, by decide, ?_⟩
            · show aqiLe v (AQIMax.fin 300) = true
              simpa [aqiLe] using h5
            · simp [AQI_LEVELS, aqiLe]
              omega
          · rw [c5 h5]
            refine ⟨?_, AQI_LEVELS.take 5, AQI_LEVELS.drop 6, by decide, ?_⟩
            · show aqiLe v AQIMax.inf = true
              rfl
            · simp [AQI_LEVELS, aqiLe]
              omega

/-- Witness for C1 at `v = 120`. -/
theorem claim1_witness :
    (0 : Int) ≤ 120 ∧
    (aqiLe 120 (getAQILevel 120).max = true ∧
      ∃ pre post, AQI_LEVELS = pre ++ getAQILevel 120 :: post ∧
        ∀ l ∈ pre, aqiLe 120 l.max = false) ∧
    ((getAQILevel 0).level = "Good" ∧ (getAQILevel 50).level = "Good" ∧
     (getAQILevel 51).level = "Moderate" ∧
     (getAQILevel 100).level = "Moderate" ∧
     (getAQILevel 101).level = "Unhealthy for Sensitive Groups" ∧
     (getAQILevel 150).level = "Unhealthy for Sensitive Groups" ∧
     (getAQILevel 151).level = "Unhealthy" ∧
     (getAQILevel 200).level = "Unhealthy" ∧
     (getAQILevel 201).level = "Very Unhealthy" ∧
     (getAQILevel 300).level = "Very Unhealthy" ∧
     (getAQILevel 301).level = "Hazardous" ∧
     (getAQILevel 100000).level = "Hazardous") :=
  ⟨by decide, claim1_classifier_first_match 120 (by decide)⟩

/-- A JS number as `getAQILevel` can receive it: an integer or `NaN`
(`typeof NaN === 'number'`, so `NaN` passes the fetcher's type check and
its `< 0` check, both being false comparisons). -/
inductive JsNum where
  | int (n : Int)
  | nan
  deriving DecidableEq

/-- JS `aqi <= level.max` over the full number domain: every comparison
involving `NaN` is false — including `NaN <= Infinity`. -/
def jsLe : JsNum → AQIMax → Bool
  | .int n, m => aqiLe n m
  | .nan, _ => false

/-- `getAQILevel` over the full JS-number domain, `NaN` included: same
first-match scan, same `|| AQI_LEVELS[AQI_LEVELS.length - 1]` fallback. -/
def getAQILevelJs (aqi : JsNum) : AQILevelRec :=
  (AQI_LEVELS.find? (fun l => jsLe aqi l.max)).getD
    (AQI_LEVELS.getLast (by decide))

/-- C10 counterexample: at `NaN` — a numeric input in JS — every
`aqi <= level.max` comparison is false, the first-match scan finds no
tier, and the `||` fallback executes, returning the last tier.  The
fallback is live, not unreachable, so the claim as stated is false. -/
theorem claim10_counterexample :
    (AQI_LEVELS.find? (fun l => jsLe .nan l.max)).isSome = false ∧
    getAQILevelJs .nan = AQI_LEVELS.getLast (by decide) ∧
    (getAQILevelJs .nan).level = "Hazardous" := by
  decide

/-- C10 amended: `getAQILevel` is total over all numeric inputs; for
every non-`NaN` (integer) index the first-match scan finds a tier — so
the fallback is not used there, and it agrees with the integer-domain
classifier — and every negative index classifies to the first tier,
labeled Good; at `NaN` the scan finds nothing and the explicit fallback
returns the last tier. -/
theorem claim10_classifier_total_fallback_nan (v : JsNum) :
    (∀ n, v = .int n →
      (AQI_LEVELS.find? (fun l => jsLe v l.max)).isSome = true ∧
      AQI_LEVELS.find? (fun l => jsLe v l.max) = some (getAQILevelJs v) ∧
      getAQILevelJs v = getAQILevel n) ∧
    (v = .nan →
      AQI_LEVELS.find? (fun l => jsLe v l.max) = none ∧
      getAQILevelJs v = AQI_LEVELS.getLast (by decide)) ∧
    (∀ n, v = .int n → n < 0 →
      AQI_LEVELS.get? 0 = some (getAQILevelJs v) ∧
      (getAQILevelJs v).level = "Good") := by
  refine ⟨fun n hn => ?_, fun hn => ?_, fun n hn hneg => ?_⟩
  · subst hn
    have hfun : (fun l : AQILevelRec => jsLe (.int n) l.max) =
        (fun l : AQILevelRec => aqiLe n l.max) := rfl
    have hjs : getAQILevelJs (.int n) = getAQILevel n := rfl
    rw [hfun, hjs, find?_levels n]
    exact ⟨rfl, rfl, rfl⟩
  · subst hn
    exact ⟨by decide, rfl⟩
  · subst hn
    have hjs : getAQILevelJs (.int n) = getAQILevel n := rfl
    rw [hjs, (getAQILevel_eq_get n).1 (by omega)]
    exact ⟨by simp [AQI_LEVELS], by simp [AQI_LEVELS]⟩

/-- Witness for the amended C10 at `v = -5` (integer and negative
branches) and at `NaN` (fallback branch). -/
theorem claim10_amended_witness :
    (AQI_LEVELS.find? (fun l => jsLe (.int (-5)) l.max)).isSome = true ∧
    getAQILevelJs (.int (-5)) = getAQILevel (-5) ∧
    AQI_LEVELS.get? 0 = some (getAQILevelJs (.int (-5))) ∧
    (getAQILevelJs (.int (-5))).level = "Good" ∧
    AQI_LEVELS.find? (fun l => jsLe .nan l.max) = none ∧
    getAQILevelJs .nan = AQI_LEVELS.getLast (by decide) := by
  have hint := (claim10_classifier_total_fallback_nan (.int (-5))).1 (-5) rfl
  have hneg := (claim10_classifier_total_fallback_nan (.int (-5))).2.2 (-5) rfl
    (by decide)
  have hnan := (claim10_classifier_total_fallback_nan .nan).2.1 rfl
  exact ⟨hint.1, hint.2.2, hneg.1, hneg.2, hnan.1, hnan.2⟩

/-! ### String and join lemmas -/

lemma joinLines_cons_cons (x y : String) (l : List String) :
    joinLines (x :: y :: l) = x ++ "\n" ++ joinLines (y :: l) := rfl

/-- Joining a list that ends in `[a]` ends in a newline followed by `a`. -/
lemma joinLines_append_singleton (l : List String) (a : String) (hl : l ≠ []) :
    joinLines (l ++ [a]) = joinLines l ++ "\n" ++ a := by
  induction l with
  | nil => exact absurd rfl hl
  | cons x xs ih =>
    cases xs with
    | nil => rfl
    | cons y ys =>
      have : (x :: y :: ys) ++ [a] = x :: ((y :: ys) ++ [a]) := rfl
      rw [this]
      cases hys : (y :: ys) ++ [a] with
      | nil => simp at hys
      | cons z zs =>
        rw [joinLines_cons_cons, ← hys, ih (by simp), joinLines_cons_cons]
        simp [String.append_assoc]

/-- A character of a member string survives the newline join. -/
lemma mem_data_joinLines {c : Char} {s : String} {l : List String}
    (hs : s ∈ l) (hc : c ∈ s.data) : c ∈ (joinLines l).data := by
  induction l with
  | nil => simp at hs
  | cons x xs ih =>
    cases xs with
    | nil =>
      simp at hs
      subst hs
      exact hc
    | cons y ys =>
      rw [joinLines_cons_cons]
      simp only [String.data_append, List.mem_append]
      rcases List.mem_cons.mp hs with h | h
      · subst h
        exact Or.inl (Or.inl hc)
      · exact Or.inr (ih h)

/-- A non-matching element survives `dropWhile`. -/
lemma mem_dropWhile_of_mem {p : Char → Bool} {c : Char} {l : List Char}
    (h : c ∈ l) (hc : p c = false) : c ∈ l.dropWhile p := by
  induction l with
  | nil => simp at h
  | cons a t ih =>
    by_cases pa : p a = true
    · rw [List.dropWhile_cons_of_pos pa]
      rcases List.mem_cons.mp h with h | h
      · subst h
        rw [hc] at pa
        exact absurd pa (by simp)
      · exact ih h
    · rw [List.dropWhile_cons_of_neg pa]
      exact h

/-- A string containing a non-whitespace character does not trim to empty. -/
lemma jsTrim_ne_empty {s : String} {c : Char}
    (hc : c ∈ s.data) (hw : isJsWS c = false) : jsTrim s ≠ "" := by
  intro h
  have hd : (((s.data.dropWhile isJsWS).reverse.dropWhile isJsWS).reverse) = [] := by
    have := congrArg String.data h
    simpa [jsTrim] using this
  have h1 : c ∈ s.data.dropWhile isJsWS := mem_dropWhile_of_mem hc hw
  have h2 : c ∈ (s.data.dropWhile isJsWS).reverse := List.mem_reverse.mpr h1
  have h3 : c ∈ (s.data.dropWhile isJsWS).reverse.dropWhile isJsWS :=
    mem_dropWhile_of_mem h2 hw
  have h4 : c ∈ ((s.data.dropWhile isJsWS).reverse.dropWhile isJsWS).reverse :=
    List.mem_reverse.mpr h3
  rw [hd] at h4
  simp at h4

/-- The fixed pollutant-section header is always one of the parts. -/
lemma pollutant_header_mem (d : AQIData) (o : MessageOptions) :
    "📊 <b>Pollutants:</b>" ∈ formatMessageParts d o := by
  simp [formatMessageParts]

/-- The fixed health-advisory header is always one of the parts. -/
lemma advisory_header_mem (d : AQIData) (o : MessageOptions) :
    "🏥 <b>Health Advisory:</b>" ∈ formatMessageParts d o := by
  simp [formatMessageParts]

/-- Every formatted message trims to a non-empty string. -/
lemma jsTrim_formatMessage_ne (d : AQIData) (o : MessageOptions) :
    jsTrim (formatMessage d o) ≠ "" := by
  refine jsTrim_ne_empty (c := '📊') ?_ (by decide)
  exact mem_data_joinLines (pollutant_header_mem d o) (by decide)

/-- C6: `formatMessage` is pure and deterministic — equal reading and
options inputs give byte-identical output — and the output always ends
with the timestamp line `⏰ {data.time}` (the last entry of the joined
parts). -/
theorem claim6_formatMessage_pure_and_timestamp (d : AQIData) (o : MessageOptions) :
    formatMessage d o = formatMessage d o ∧
    (formatMessageParts d o).getLast? = some ("⏰ " ++ d.time) ∧
    ∃ p, formatMessage d o = p ++ "\n" ++ ("⏰ " ++ d.time) := by
  have hsplit : ∃ pre, formatMessageParts d o =
      (pre ++ [""]) ++ ["⏰ " ++ d.time] := by
    simp only [formatMessageParts]
    rw [show ("" :: ["⏰ " ++ d.time] : List String) = [""] ++ ["⏰ " ++ d.time]
      from rfl]
    rw [← List.append_assoc]
    exact ⟨_, rfl⟩
  obtain ⟨pre, hpre⟩ := hsplit
  refine ⟨rfl, ?_, ?_⟩
  · rw [hpre, List.getLast?_concat]
  · refine ⟨joinLines (pre ++ [""]), ?_⟩
    rw [formatMessage, hpre, joinLines_append_singleton _ _ (by simp)]

/-- C9: the formatter's output is never empty nor whitespace-only — it
always carries the fixed pollutant-section and health-advisory headers —
so `sendTelegram` never takes its empty-message branch on a formatted
message and always issues the POST; the alert and summary variants
inherit this. -/
theorem claim9_formatted_message_never_empty (d : AQIData) (o : MessageOptions)
    (send : TgOutcome) :
    jsTrim (formatMessage d o) ≠ "" ∧
    "📊 <b>Pollutants:</b>" ∈ formatMessageParts d o ∧
    "🏥 <b>Health Advisory:</b>" ∈ formatMessageParts d o ∧
    (sendTelegram (formatMessage d o) send).2 ≠ some WErr.emptyMessageError ∧
    (sendTelegram (formatMessage d o) send).1 = [formatMessage d o] ∧
    jsTrim (formatAlertMessage d) ≠ "" ∧
    jsTrim (formatDailySummary d) ≠ "" := by
  have hne := jsTrim_formatMessage_ne d o
  refine ⟨hne, pollutant_header_mem d o, advisory_header_mem d o, ?_, ?_,
    jsTrim_formatMessage_ne d _, jsTrim_formatMessage_ne d _⟩
  · rw [sendTelegram, if_neg hne]
    cases send (formatMessage d o) with
    | none => simp
    | some cb => simp
  · rw [sendTelegram, if_neg hne]
    cases send (formatMessage d o) with
    | none => simp
    | some cb => simp

/-- A non-empty-trimming message is always POSTed by `sendTelegram`. -/
lemma sendTelegram_posts (msg : String) (send : TgOutcome)
    (h : jsTrim msg ≠ "") : (sendTelegram msg send).1 = [msg] := by
  rw [sendTelegram, if_neg h]
  cases send msg with
  | none => rfl
  | some cb => rfl

/-- C2: on a successful fetch, the daily-summary cron sends exactly one
summary-variant message whatever the index is; any other cron sends
exactly one alert-variant message iff the index strictly exceeds the
threshold — at threshold 100, index 100 sends nothing and index 101 sends
exactly one alert. -/
theorem claim2_scheduled_dispatch (cron : String) (d : AQIData)
    (send : TgOutcome) (fetched : Except WErr AQIData) (hf : fetched = .ok d) :
    (cron = CRON_DAILY_SUMMARY →
      (scheduled cron fetched send).1 = [formatDailySummary d]) ∧
    (cron ≠ CRON_DAILY_SUMMARY →
      (d.aqi > ALERT_THRESHOLD →
        (scheduled cron fetched send).1 = [formatAlertMessage d]) ∧
      (¬d.aqi > ALERT_THRESHOLD → (scheduled cron fetched send).1 = [])) ∧
    (cron = CRON_HOURLY → d.aqi = 100 → (scheduled cron fetched send).1 = []) ∧
    (cron = CRON_HOURLY → d.aqi = 101 →
      (scheduled cron fetched send).1 = [formatAlertMessage d]) := by
  subst hf
  have hhd : CRON_HOURLY ≠ CRON_DAILY_SUMMARY := by decide
  refine ⟨fun hc => ?_, fun hc => ⟨fun ha => ?_, fun ha => ?_⟩,
    fun hc ha => ?_, fun hc ha => ?_⟩
  · rw [scheduled, scheduledBody, if_pos hc]
    exact sendTelegram_posts _ _ (jsTrim_formatMessage_ne d _)
  · rw [scheduled, scheduledBody, if_neg hc, if_pos ha]
    exact sendTelegram_posts _ _ (jsTrim_formatMessage_ne d _)
  · rw [scheduled, scheduledBody, if_neg hc, if_neg ha]
  · subst hc
    rw [scheduled, scheduledBody, if_neg hhd, if_neg (by rw [ha]; decide)]
  · subst hc
    rw [scheduled, scheduledBody, if_neg hhd, if_pos (by rw [ha]; decide)]
    exact sendTelegram_posts _ _ (jsTrim_formatMessage_ne d _)

/-- Witness for C2: a hundred-AQI reading on the hourly cron sends nothing;
the same reading on the daily cron sends the summary. -/
theorem claim2_witness :
    (scheduled CRON_HOURLY
      (.ok { aqi := 100, city := "Bangkok", dominantPollutant := "pm25",
             pollutants := { pm25 := some 38, pm10 := none, o3 := none,
                             no2 := none, so2 := none, co := none },
             weather := { temperature := some 28, humidity := some 65,
                          wind := none },
             time := "2024-01-15 14:00:00" })
      (fun _ => none)).1 = [] := by
  refine ((claim2_scheduled_dispatch CRON_HOURLY _ (fun _ => none) _
    rfl).2.2.1) rfl rfl

/-- C3: in the scheduled path every fetch or delivery error is caught and
only logged: a failing fetch yields no POST and logs exactly the fetch
error, and a rejected delivery yields the logged delivery error; nothing
propagates out of the handler (its result type is a plain pair). -/
theorem claim3_scheduled_swallows_errors (cron : String)
    (fetched : Except WErr AQIData) (send : TgOutcome) :
    (∀ e, fetched = .error e → scheduled cron fetched send = ([], some e)) ∧
    (∀ d c b, fetched = .ok d → cron = CRON_DAILY_SUMMARY →
      send (formatDailySummary d) = some (c, b) →
      scheduled cron fetched send =
        ([formatDailySummary d], some (.deliveryError c b))) := by
  constructor
  · intro e he
    subst he
    rfl
  · intro d c b hf hc hs
    subst hf
    subst hc
    have hne : jsTrim (formatDailySummary d) ≠ "" := jsTrim_formatMessage_ne d _
    rw [scheduled, scheduledBody, if_pos rfl, sendTelegram, if_neg hne, hs]

/-- Witness for C3: a schema error during fetch is logged and nothing is
sent. -/
theorem claim3_witness :
    scheduled CRON_HOURLY (.error .schemaError) (fun _ => none) =
      ([], some WErr.schemaError) :=
  (claim3_scheduled_swallows_errors CRON_HOURLY (.error .schemaError)
    (fun _ => none)).1 .schemaError rfl

/-- C4: `fetchAQI` validates the provider response: a non-`ok` status
field fails with the API-status error even on HTTP 200; a negative or
non-numeric index fails with the invalid-index error; an index of 0
passes validation and yields a reading with index 0. -/
theorem claim4_fetchAQI_validation (resp : HttpResp) (json : AQICNResponse) :
    (resp.ok = true → json.status ≠ "ok" →
      fetchAQI resp json = .error (.apiStatusError json.status)) ∧
    (∀ data, resp.ok = true → json.status = "ok" → json.data = some data →
      cityNameTruthy data.city = true →
      ((∀ v, data.aqi = .num v → v < 0 →
          fetchAQI resp json = .error (.invalidIndexError (toString v))) ∧
       (∀ shown, data.aqi = .nonNum shown →
          fetchAQI resp json = .error (.invalidIndexError shown)) ∧
       (data.aqi = .num 0 →
          ∃ d, fetchAQI resp json = .ok d ∧ d.aqi = 0))) := by
  constructor
  · intro hok hst
    simp [fetchAQI, hok, hst]
  · intro data hok hst hdata hcity
    refine ⟨fun v hv hneg => ?_, fun shown hs => ?_, fun hz => ?_⟩
    · simp [fetchAQI, hok, hst, hdata, hcity, hv, hneg]
    · simp [fetchAQI, hok, hst, hdata, hcity, hs]
    · simp [fetchAQI, hok, hst, hdata, hcity, hz]

/-- An HTTP-200 transport outcome, for concrete evaluations. -/
def respOkW : HttpResp := { ok := true, status := 200, statusText := "OK" }

/-- An `iaqi` object with no sensors, for concrete evaluations. -/
def iaqiEmptyW : JIaqi :=
  { pm25 := none, pm10 := none, o3 := none, no2 := none, so2 := none,
    co := none, t := none, h := none, w := none }

/-- A well-formed provider `data` object with the given `aqi` field. -/
def jdataW (a : JsonNum) : JData :=
  { aqi := a, city := some { name := some "Bangkok" }, dominentpol := "pm25",
    iaqi := iaqiEmptyW, time := { s := "t" } }

/-- A status-`ok` provider response with the given `aqi` field. -/
def jsonOkW (a : JsonNum) : AQICNResponse :=
  { status := "ok", data := some (jdataW a) }

/-- Witness for C4: a provider error status is rejected on HTTP 200, an
index of −1 is rejected, a non-numeric index is rejected, and an index of
0 is accepted with reading index 0. -/
theorem claim4_witness :
    fetchAQI respOkW { status := "error", data := none } =
      .error (.apiStatusError "error") ∧
    fetchAQI respOkW (jsonOkW (.num (-1))) =
      .error (.invalidIndexError "-1") ∧
    fetchAQI respOkW (jsonOkW (.nonNum "undefined")) =
      .error (.invalidIndexError "undefined") ∧
    ∃ d, fetchAQI respOkW (jsonOkW (.num 0)) = .ok d ∧ d.aqi = 0 := by
  refine ⟨(claim4_fetchAQI_validation respOkW
      { status := "error", data := none }).1 rfl (by decide), ?_, ?_, ?_⟩
  · have h := ((claim4_fetchAQI_validation respOkW (jsonOkW (.num (-1)))).2
      (jdataW (.num (-1))) rfl rfl rfl (by decide)).1 (-1) rfl (by decide)
    simpa using h
  · exact ((claim4_fetchAQI_validation respOkW
      (jsonOkW (.nonNum "undefined"))).2 (jdataW (.nonNum "undefined"))
      rfl rfl rfl (by decide)).2.1 "undefined" rfl
  · exact ((claim4_fetchAQI_validation respOkW (jsonOkW (.num 0))).2
      (jdataW (.num 0)) rfl rfl rfl (by decide)).2.2 rfl

set_option maxHeartbeats 1000000 in
/-- C5: each diagnostic path (`/check`, `/test-alert`, `/test-summary`)
either returns HTTP 200 or catches the thrown error at the
`handleWithError` boundary and returns HTTP 500 with body
`Error: {message}`; every thrown error maps to the 500 page carrying
that error's own message — a failing fetch on any core path, and a
failing delivery on the two sending paths; a successful fetch (and
delivery, where one happens) gives HTTP 200. -/
theorem claim5_http_error_boundary (path : String)
    (fetched : Except WErr AQIData) (send : TgOutcome)
    (hcore : path = "/check" ∨ path = "/test-alert" ∨ path = "/test-summary") :
    ((workerFetch path fetched send).status = 200 ∨
      ∃ e, workerFetch path fetched send =
        { body := .text ("Error: " ++ getErrorMessage e), status := 500 }) ∧
    (∀ e, fetched = .error e →
      workerFetch path fetched send =
        { body := .text ("Error: " ++ getErrorMessage e), status := 500 }) ∧
    (∀ d e, fetched = .ok d →
      sendTelegramExc (formatAlertMessage d) send = .error e →
      workerFetch "/test-alert" fetched send =
        { body := .text ("Error: " ++ getErrorMessage e), status := 500 }) ∧
    (∀ d e, fetched = .ok d →
      sendTelegramExc (formatDailySummary d) send = .error e →
      workerFetch "/test-summary" fetched send =
        { body := .text ("Error: " ++ getErrorMessage e), status := 500 }) ∧
    (∀ d, fetched = .ok d →
      workerFetch "/check" fetched send =
        { body := .jsonData d, status := 200 } ∧
      (sendTelegramExc (formatAlertMessage d) send = .ok () →
        workerFetch "/test-alert" fetched send =
          { body := .text ("Alert sent! AQI: " ++ toString d.aqi),
            status := 200 }) ∧
      (sendTelegramExc (formatDailySummary d) send = .ok () →
        workerFetch "/test-summary" fetched send =
          { body := .text ("Summary sent! AQI: " ++ toString d.aqi),
            status := 200 })) := by
  refine ⟨?_, ?_, ?_, ?_, ?_⟩
  case refine_2 =>
    intro e he
    subst he
    rcases hcore with h | h | h <;> subst h <;> rfl
  case refine_3 =>
    intro d e hd hst
    subst hd
    simp [workerFetch, handleWithError, hst]
  case refine_4 =>
    intro d e hd hst
    subst hd
    simp [workerFetch, handleWithError, hst]
  case refine_5 =>
    intro d hd
    subst hd
    refine ⟨rfl, fun hst => ?_, fun hst => ?_⟩ <;>
      simp [workerFetch, handleWithError, hst]
  case refine_1 =>
    rcases hcore with h | h | h <;> subst h
    · cases fetched with
      | ok d => left; rfl
      | error e => right; exact ⟨e, rfl⟩
    · cases fetched with
      | ok d =>
        generalize hst : sendTelegramExc (formatAlertMessage d) send = st
        cases st with
        | ok u =>
          left
          simp [workerFetch, handleWithError, hst]
        | error e =>
          right
          refine ⟨e, ?_⟩
          simp [workerFetch, handleWithError, hst]
      | error e => right; exact ⟨e, rfl⟩
    · cases fetched with
      | ok d =>
        generalize hst : sendTelegramExc (formatDailySummary d) send = st
        cases st with
        | ok u =>
          left
          simp [workerFetch, handleWithError, hst]
        | error e =>
          right
          refine ⟨e, ?_⟩
          simp [workerFetch, handleWithError, hst]
      | error e => right; exact ⟨e, rfl⟩

/-- Witness for C5: a schema error on `/check` and a provider error status
on `/test-alert` both surface as the 500 page carrying that error's
message. -/
theorem claim5_witness :
    workerFetch "/check" (.error .schemaError) (fun _ => none) =
      { body := .text ("Error: " ++ getErrorMessage .schemaError),
        status := 500 } ∧
    workerFetch "/test-alert" (.error (.apiStatusError "error"))
        (fun _ => none) =
      { body := .text ("Error: " ++ getErrorMessage (.apiStatusError "error")),
        status := 500 } :=
  ⟨(claim5_http_error_boundary "/check" (.error .schemaError) (fun _ => none)
      (Or.inl rfl)).2.1 .schemaError rfl,
   (claim5_http_error_boundary "/test-alert" (.error (.apiStatusError "error"))
      (fun _ => none) (Or.inr (Or.inl rfl))).2.1 (.apiStatusError "error") rfl⟩

/-! ### Weather- and pollutant-line structure -/

/-- A line of the message is a weather line iff it starts with the
thermometer marker character. -/
def isWeatherLine (s : String) : Bool := decide (s.data.head? = some '🌡')

lemma string_eq_empty_iff_data (a : String) : a = "" ↔ a.data = [] := by
  constructor
  · intro h
    rw [h]
  · intro h
    exact String.ext h

lemma append_eq_empty_str (a b : String) : a ++ b = "" ↔ a = "" ∧ b = "" := by
  rw [string_eq_empty_iff_data, string_eq_empty_iff_data,
    string_eq_empty_iff_data, String.data_append, List.append_eq_nil]

lemma isWeatherLine_append (a b : String) :
    isWeatherLine (a ++ b) =
      if a = "" then isWeatherLine b else isWeatherLine a := by
  unfold isWeatherLine
  rw [String.data_append]
  by_cases h : a = ""
  · rw [if_pos h, (string_eq_empty_iff_data a).mp h]
    rfl
  · rw [if_neg h]
    cases hd : a.data with
    | nil => exact absurd ((string_eq_empty_iff_data a).mpr hd) h
    | cons c t => rfl

/-- Every member of the classifier table is reachable by `getAQILevel`. -/
lemma getAQILevel_mem (v : Int) : getAQILevel v ∈ AQI_LEVELS :=
  List.mem_of_find?_eq_some (find?_levels v)

/-- No tier's advisory text starts with the thermometer marker. -/
lemma isWeatherLine_advisory (v : Int) :
    isWeatherLine (getAQILevel v).advisory = false := by
  have h := getAQILevel_mem v
  simp only [AQI_LEVELS, List.mem_cons, List.not_mem_nil, or_false] at h
  rcases h with h | h | h | h | h | h <;> rw [h] <;> decide

/-- Every pollutant bullet is the bullet marker followed by a rest. -/
lemma pollutantLines_shape (entries : List (String × Option Int)) :
    ∀ b ∈ pollutantLines entries, ∃ s, b = "• " ++ s := by
  intro b hb
  simp only [pollutantLines, List.mem_filterMap] at hb
  obtain ⟨⟨k, v⟩, _, hsome⟩ := hb
  cases v with
  | none => simp at hsome
  | some vv =>
    have hb : "• " ++ labelFor k ++ ": " ++ toString vv = b := by
      simpa using hsome
    refine ⟨labelFor k ++ (": " ++ toString vv), ?_⟩
    rw [← hb]
    simp [String.append_assoc]

lemma isWeatherLine_bullet (s : String) : isWeatherLine ("• " ++ s) = false := by
  rw [isWeatherLine_append, if_neg (by decide)]
  decide

/-- `sepJoin` of a non-empty list starts with its first element. -/
lemma sepJoin_cons_shape (sep b : String) (bs : List String) :
    sepJoin sep (b :: bs) = b ∨ ∃ s, sepJoin sep (b :: bs) = b ++ s := by
  cases bs with
  | nil => exact Or.inl rfl
  | cons c r =>
    refine Or.inr ⟨sep ++ sepJoin sep (c :: r), ?_⟩
    have he : sepJoin sep (b :: c :: r) = b ++ sep ++ sepJoin sep (c :: r) := rfl
    rw [he, String.append_assoc]

/-- The rendered pollutant section never starts with the thermometer
marker: it is either the placeholder or starts with a bullet. -/
lemma isWeatherLine_formatPollutants (entries : List (String × Option Int)) :
    isWeatherLine (formatPollutants entries) = false := by
  simp only [formatPollutants]
  cases hl : pollutantLines entries with
  | nil => decide
  | cons b bs =>
    obtain ⟨s, hbs⟩ := pollutantLines_shape entries b (by rw [hl]; simp)
    rw [if_pos (by simp)]
    rcases sepJoin_cons_shape "\n" b bs with h | ⟨t, h⟩
    · rw [h, hbs]
      exact isWeatherLine_bullet s
    · rw [h, hbs, String.append_assoc]
      exact isWeatherLine_bullet (s ++ t)

/-- Each weather field renders to a non-empty string. -/
lemma weatherParts_ne_empty (w : Weather) :
    ∀ a ∈ weatherParts w, a ≠ "" := by
  intro a ha hc
  subst hc
  have l1 : ("°C" : String) ≠ "" := by decide
  have l2 : ("% humidity" : String) ≠ "" := by decide
  have l3 : (" m/s" : String) ≠ "" := by decide
  have flip : ∀ a b : String, ("" = a ++ b) ↔ a = "" ∧ b = "" := by
    intro a b
    rw [eq_comm, append_eq_empty_str]
  obtain ⟨t, h, s⟩ := w
  rw [weatherParts] at ha
  cases t <;> cases h <;> cases s <;>
    simp [flip, append_eq_empty_str, l1, l2, l3] at ha

/-- Joining non-empty strings with any separator is non-empty. -/
lemma sepJoin_ne_empty (sep : String) (l : List String)
    (h : ∀ a ∈ l, a ≠ "") (hl : l ≠ []) : sepJoin sep l ≠ "" := by
  cases l with
  | nil => exact absurd rfl hl
  | cons b bs =>
    rcases sepJoin_cons_shape sep b bs with he | ⟨s, he⟩ <;> rw [he]
    · exact h b (by simp)
    · intro hc
      exact h b (by simp) ((append_eq_empty_str b s).mp hc).1

/-- `formatWeather` is empty exactly when no weather field is present. -/
lemma formatWeather_empty_iff (w : Weather) :
    formatWeather w = "" ↔ weatherParts w = [] := by
  constructor
  · intro h
    by_contra hne
    exact sepJoin_ne_empty " | " (weatherParts w) (weatherParts_ne_empty w) hne
      (by rwa [formatWeather, if_pos (by
        cases hw : weatherParts w with
        | nil => exact absurd hw hne
        | cons a r => simp [hw])] at h)
  · intro h
    rw [formatWeather, h]
    rfl

lemma append_ne_empty_left (a b : String) (ha : a ≠ "") : a ++ b ≠ "" :=
  fun hc => ha ((append_eq_empty_str a b).mp hc).1

lemma append_ne_empty_right (a b : String) (hb : b ≠ "") : a ++ b ≠ "" :=
  fun hc => hb ((append_eq_empty_str a b).mp hc).2

lemma isWeatherLine_of_left (a b : String) (ha : a ≠ "")
    (h : isWeatherLine a = false) : isWeatherLine (a ++ b) = false := by
  rw [isWeatherLine_append, if_neg ha]
  exact h

/-- `weatherParts` is empty iff all three weather fields are absent. -/
lemma weatherParts_nil_iff (w : Weather) :
    weatherParts w = [] ↔
      w.temperature = none ∧ w.humidity = none ∧ w.wind = none := by
  obtain ⟨t, h, s⟩ := w
  cases t <;> cases h <;> cases s <;> simp [weatherParts]

/-- `formatWeather` is the separator-join of the present fields (the
guard only shortcut-returns the empty join). -/
lemma formatWeather_eq_sepJoin (w : Weather) :
    formatWeather w = sepJoin " | " (weatherParts w) := by
  simp only [formatWeather]
  cases hw : weatherParts w with
  | nil => rfl
  | cons a r => rw [if_pos (by simp)]

/-- C7: the rendered message has a weather line exactly when some weather
field is present; the line is the thermometer marker followed by the
present fields joined by the separator, with absent fields omitted (the
hypotheses rule out a title emoji or footer that itself starts with the
thermometer marker, which no caller uses). -/
theorem claim7_weather_line (d : AQIData) (o : MessageOptions)
    (hemoji : o.titleEmoji.data.head? ≠ some '🌡')
    (hfooter : ∀ f, o.footer = some f → f.data.head? ≠ some '🌡') :
    ((formatMessageParts d o).filter isWeatherLine =
      if weatherParts d.weather = [] then []
      else ["🌡️ " ++ formatWeather d.weather]) ∧
    (weatherParts d.weather = [] ↔ d.weather.temperature = none ∧
      d.weather.humidity = none ∧ d.weather.wind = none) ∧
    formatWeather d.weather = sepJoin " | " (weatherParts d.weather) := by
  refine ⟨?_, weatherParts_nil_iff d.weather, formatWeather_eq_sepJoin d.weather⟩
  have hm : isWeatherLine (o.titleEmoji ++ " <b>") = false := by
    rw [isWeatherLine_append]
    by_cases he : o.titleEmoji = ""
    · rw [if_pos he]
      decide
    · rw [if_neg he]
      exact decide_eq_false hemoji
  have m1 : (o.titleEmoji ++ " <b>") ≠ "" := append_ne_empty_right _ _ (by decide)
  have m2 : (o.titleEmoji ++ " <b>" ++ o.title) ≠ "" := append_ne_empty_left _ _ m1
  have htitle : isWeatherLine (o.titleEmoji ++ " <b>" ++ o.title ++ "</b>") = false :=
    isWeatherLine_of_left _ _ m2 (isWeatherLine_of_left _ _ m1 hm)
  have n1 : ("<b>" : String) ≠ "" := by decide
  have n2 : ("<b>" ++ o.aqiLabel) ≠ "" := append_ne_empty_left _ _ n1
  have n3 : ("<b>" ++ o.aqiLabel ++ ": ") ≠ "" := append_ne_empty_left _ _ n2
  have n4 : ("<b>" ++ o.aqiLabel ++ ": " ++ toString d.aqi) ≠ "" :=
    append_ne_empty_left _ _ n3
  have n5 : ("<b>" ++ o.aqiLabel ++ ": " ++ toString d.aqi ++ "</b> - ") ≠ "" :=
    append_ne_empty_left _ _ n4
  have n6 : ("<b>" ++ o.aqiLabel ++ ": " ++ toString d.aqi ++ "</b> - " ++
      (getAQILevel d.aqi).level) ≠ "" := append_ne_empty_left _ _ n5
  have n7 : ("<b>" ++ o.aqiLabel ++ ": " ++ toString d.aqi ++ "</b> - " ++
      (getAQILevel d.aqi).level ++ " ") ≠ "" := append_ne_empty_left _ _ n6
  have haqi : isWeatherLine ("<b>" ++ o.aqiLabel ++ ": " ++ toString d.aqi ++
      "</b> - " ++ (getAQILevel d.aqi).level ++ " " ++
      (getAQILevel d.aqi).emoji) = false :=
    isWeatherLine_of_left _ _ n7 (isWeatherLine_of_left _ _ n6
      (isWeatherLine_of_left _ _ n5 (isWeatherLine_of_left _ _ n4
        (isWeatherLine_of_left _ _ n3 (isWeatherLine_of_left _ _ n2
          (isWeatherLine_of_left _ _ n1 (by decide)))))))
  have hpoll := isWeatherLine_formatPollutants (pollutantEntries d.pollutants)
  have hadv := isWeatherLine_advisory d.aqi
  have hempty : isWeatherLine "" = false := by decide
  have hph : isWeatherLine "📊 <b>Pollutants:</b>" = false := by decide
  have hhh : isWeatherLine "🏥 <b>Health Advisory:</b>" = false := by decide
  have htime : isWeatherLine ("⏰ " ++ d.time) = false :=
    isWeatherLine_of_left _ _ (by decide) (by decide)
  simp only [formatMessageParts]
  cases hw : weatherParts d.weather with
  | nil =>
    have hwe : formatWeather d.weather = "" := (formatWeather_empty_iff _).mpr hw
    rw [hwe]
    cases hf : o.footer with
    | none =>
      simp [List.filter_append, List.filter_cons, List.filter_nil, htitle,
        haqi, hpoll, hadv, hempty, hph, hhh, htime]
    | some f =>
      have hfoot : isWeatherLine f = false := decide_eq_false (hfooter f hf)
      by_cases hfe : f = ""
      · simp [hfe, List.filter_append, List.filter_cons, List.filter_nil,
          htitle, haqi, hpoll, hadv, hempty, hph, hhh, htime]
      · simp [hfe, List.filter_append, List.filter_cons, List.filter_nil,
          htitle, haqi, hpoll, hadv, hempty, hph, hhh, htime, hfoot]
  | cons b bs =>
    have hne : formatWeather d.weather ≠ "" := by
      rw [Ne, formatWeather_empty_iff, hw]
      simp
    have hwline : isWeatherLine ("🌡️ " ++ formatWeather d.weather) = true := by
      rw [isWeatherLine_append, if_neg (by decide)]
      decide
    rw [if_neg hne]
    cases hf : o.footer with
    | none =>
      simp [List.filter_append, List.filter_cons, List.filter_nil, htitle,
        haqi, hpoll, hadv, hempty, hph, hhh, htime, hwline]
    | some f =>
      have hfoot : isWeatherLine f = false := decide_eq_false (hfooter f hf)
      by_cases hfe : f = ""
      · simp [hfe, List.filter_append, List.filter_cons, List.filter_nil,
          htitle, haqi, hpoll, hadv, hempty, hph, hhh, htime, hwline]
      · simp [hfe, List.filter_append, List.filter_cons, List.filter_nil,
          htitle, haqi, hpoll, hadv, hempty, hph, hhh, htime, hwline, hfoot]

/-- Witness for C7 at the alert options and a reading with temperature and
humidity but no wind. -/
theorem claim7_witness :
    (formatMessageParts
        { aqi := 156, city := "Bangkok", dominantPollutant := "pm25",
          pollutants := { pm25 := some 89, pm10 := some 45, o3 := some 32,
                          no2 := none, so2 := none, co := none },
          weather := { temperature := some 28, humidity := some 65,
                       wind := none },
          time := "2024-01-15 14:00:00" }
        { title := "Bangkok Air Quality Alert", titleEmoji := "⚠️",
          aqiLabel := "AQI", footer := none }).filter isWeatherLine =
      if weatherParts { temperature := some 28, humidity := some 65,
                        wind := none } = [] then []
      else ["🌡️ " ++ formatWeather { temperature := some 28,
                                      humidity := some 65, wind := none }] :=
  (claim7_weather_line _ _ (by decide) (by simp)).1

/-- Spec-side rendering of the pollutant bullets: one `• {label}: {value}`
line per present pollutant, in table order, using the canonical display
labels, absent pollutants omitted.  Stated from the spec's words, to be
compared with the source's `formatPollutants`. -/
def pollutantBulletsSpec (p : Pollutants) : List String :=
  (match p.pm25 with | some v => ["• PM2.5: " ++ toString v] | none => [])
  ++ (match p.pm10 with | some v => ["• PM10: " ++ toString v] | none => [])
  ++ (match p.o3 with | some v => ["• O₃: " ++ toString v] | none => [])
  ++ (match p.no2 with | some v => ["• NO₂: " ++ toString v] | none => [])
  ++ (match p.so2 with | some v => ["• SO₂: " ++ toString v] | none => [])
  ++ (match p.co with | some v => ["• CO: " ++ toString v] | none => [])

/-- C8: the pollutant section is the placeholder line when all six
concentrations are absent, and otherwise one bullet per present pollutant
with the canonical labels, in order; a key outside the six known codes
would be rendered under its raw name. -/
theorem claim8_pollutant_section (p : Pollutants) :
    pollutantLines (pollutantEntries p) = pollutantBulletsSpec p ∧
    (p.pm25 = none ∧ p.pm10 = none ∧ p.o3 = none ∧ p.no2 = none ∧
      p.so2 = none ∧ p.co = none →
      formatPollutants (pollutantEntries p) = "No pollutant data available") ∧
    (pollutantBulletsSpec p ≠ [] →
      formatPollutants (pollutantEntries p) =
        sepJoin "\n" (pollutantBulletsSpec p)) ∧
    (∀ k, k ≠ "pm25" → k ≠ "pm10" → k ≠ "o3" → k ≠ "no2" → k ≠ "so2" →
      k ≠ "co" → labelFor k = k) := by
  have c1 : ("• " ++ labelFor "pm25" ++ ": " : String) = "• PM2.5: " := rfl
  have c2 : ("• " ++ labelFor "pm10" ++ ": " : String) = "• PM10: " := rfl
  have c3 : ("• " ++ labelFor "o3" ++ ": " : String) = "• O₃: " := rfl
  have c4 : ("• " ++ labelFor "no2" ++ ": " : String) = "• NO₂: " := rfl
  have c5 : ("• " ++ labelFor "so2" ++ ": " : String) = "• SO₂: " := rfl
  have c6 : ("• " ++ labelFor "co" ++ ": " : String) = "• CO: " := rfl
  have hlines : pollutantLines (pollutantEntries p) = pollutantBulletsSpec p := by
    obtain ⟨a, b, c, e, f, g⟩ := p
    cases a <;> cases b <;> cases c <;> cases e <;> cases f <;> cases g <;>
      simp [pollutantLines, pollutantEntries, pollutantBulletsSpec,
        c1, c2, c3, c4, c5, c6]
  refine ⟨hlines, ?_, ?_, ?_⟩
  · rintro ⟨h1, h2, h3, h4, h5, h6⟩
    simp [formatPollutants, pollutantLines, pollutantEntries,
      h1, h2, h3, h4, h5, h6]
  · intro hne
    simp only [formatPollutants, hlines]
    cases hb : pollutantBulletsSpec p with
    | nil => exact absurd hb hne
    | cons x xs => rw [if_pos (by simp)]
  · intro k k1 k2 k3 k4 k5 k6
    have b1 : (k == "pm25") = false := beq_eq_false_iff_ne.mpr k1
    have b2 : (k == "pm10") = false := beq_eq_false_iff_ne.mpr k2
    have b3 : (k == "o3") = false := beq_eq_false_iff_ne.mpr k3
    have b4 : (k == "no2") = false := beq_eq_false_iff_ne.mpr k4
    have b5 : (k == "so2") = false := beq_eq_false_iff_ne.mpr k5
    have b6 : (k == "co") = false := beq_eq_false_iff_ne.mpr k6
    simp [labelFor, POLLUTANT_LABELS, List.lookup, b1, b2, b3, b4, b5, b6]

/-- Witness for C8: an all-absent reading renders the placeholder, a
reading with three pollutants renders the joined canonical bullets, and
the unknown key renders raw. -/
theorem claim8_witness :
    formatPollutants (pollutantEntries
      { pm25 := none, pm10 := none, o3 := none, no2 := none,
        so2 := none, co := none }) = "No pollutant data available" ∧
    formatPollutants (pollutantEntries
      { pm25 := some 89, pm10 := some 45, o3 := some 32, no2 := none,
        so2 := none, co := none }) =
      sepJoin "\n" (pollutantBulletsSpec
        { pm25 := some 89, pm10 := some 45, o3 := some 32, no2 := none,
          so2 := none, co := none }) ∧
    labelFor "nh3" = "nh3" :=
  ⟨(claim8_pollutant_section _).2.1
      ⟨rfl, rfl, rfl, rfl, rfl, rfl⟩,
   (claim8_pollutant_section _).2.2.1 (by decide),
   (claim8_pollutant_section
      { pm25 := none, pm10 := none, o3 := none, no2 := none,
        so2 := none, co := none }).2.2.2 "nh3" (by decide) (by decide)
      (by decide) (by decide) (by decide) (by decide)⟩

end AqiNotify
